import Mathlib

/-!
Shallow embedding of `crypto/store/store_lib.c` (the OSSL_STORE facade):
the tagged-union credential object `OSSL_STORE_INFO`, its constructors,
accessors and destructor, and the `OSSL_STORE_CTX` session operations
open / load / eof / close.

Modelling conventions:
* Crypto handles (`EVP_PKEY *`, `X509 *`, `X509_CRL *`, `BUF_MEM *`) are
  opaque `Nat` identifiers; the global reference-count state is a function
  `Nat → Nat` and the `_up_ref` primitives update it.
* C strings are Lean `String`s; a nullable `char *` is `Option String`.
* Allocation primitives (`OPENSSL_zalloc`, `OPENSSL_strdup`) are given an
  explicit success flag, so failure paths are reachable.
* Releases of caller-visible resources are recorded as an explicit
  `List Release` event trace, so ownership claims become statements about
  the trace.
* The error stack (`OSSL_STOREerr`) is modelled as a `List StoreErr` of
  raised reason codes.
-/

/-- Reason codes raised via `OSSL_STOREerr` in `store_lib.c`. -/
inductive StoreErr where
  | malloc
  | notAName
  | notParameters
  | notAKey
  | notACertificate
  | notACRL
  | invalidArgument
deriving DecidableEq, Repr

/-- Release events: payload-release operations and the deallocation of the
`OSSL_STORE_INFO` struct itself, as performed by `OSSL_STORE_INFO_free`. -/
inductive Release where
  | bufMemFree (h : Nat)
  | strFree (s : String)
  | evpPkeyFree (h : Nat)
  | x509Free (h : Nat)
  | x509CrlFree (h : Nat)
  | infoStruct
deriving DecidableEq, Repr

/-- The tagged union `struct ossl_store_info_st`: exactly one variant is
active, selected by the `type` field (here the inductive tag). -/
inductive StoreInfo where
  | name (nm : String) (desc : Option String)
  | params (h : Nat)
  | pkey (h : Nat)
  | cert (h : Nat)
  | crl (h : Nat)
  | embedded (blob : Nat) (pem_name : Option String)
deriving DecidableEq, Repr

/-- Tag constant `OSSL_STORE_INFO_NAME`. -/
def OSSL_STORE_INFO_NAME : Nat := 1
/-- Tag constant `OSSL_STORE_INFO_PARAMS`. -/
def OSSL_STORE_INFO_PARAMS : Nat := 2
/-- Tag constant `OSSL_STORE_INFO_PKEY`. -/
def OSSL_STORE_INFO_PKEY : Nat := 3
/-- Tag constant `OSSL_STORE_INFO_CERT`. -/
def OSSL_STORE_INFO_CERT : Nat := 4
/-- Tag constant `OSSL_STORE_INFO_CRL`. -/
def OSSL_STORE_INFO_CRL : Nat := 5
/-- Internal tag constant `OSSL_STORE_INFO_EMBEDDED` (value internal; only
distinctness from the public tags matters here). -/
def OSSL_STORE_INFO_EMBEDDED : Nat := 6

/-- `OSSL_STORE_INFO_get_type`: read the `type` tag. -/
def OSSL_STORE_INFO_get_type : StoreInfo → Nat
  | .name _ _ => OSSL_STORE_INFO_NAME
  | .params _ => OSSL_STORE_INFO_PARAMS
  | .pkey _ => OSSL_STORE_INFO_PKEY
  | .cert _ => OSSL_STORE_INFO_CERT
  | .crl _ => OSSL_STORE_INFO_CRL
  | .embedded _ _ => OSSL_STORE_INFO_EMBEDDED

/-- `store_info_new`: `OPENSSL_zalloc` the struct (success governed by
`allocOk`), stamp the tag and payload; on allocation failure return NULL
having freed nothing. -/
def store_info_new (allocOk : Bool) (info : StoreInfo) : Option StoreInfo :=
  if allocOk then some info else none

/-- `OSSL_STORE_INFO_free`: NULL is a no-op; otherwise dispatch on the tag,
release the payload through its own release mechanism, then free the struct.
Returned as the ordered trace of release events. -/
def OSSL_STORE_INFO_free : Option StoreInfo → List Release
  | none => []
  | some i =>
    (match i with
     | .embedded blob pem =>
       .bufMemFree blob :: (match pem with
                            | some s => [.strFree s]
                            | none => [])
     | .name nm d =>
       .strFree nm :: (match d with
                       | some s => [.strFree s]
                       | none => [])
     | .params h => [.evpPkeyFree h]
     | .pkey h => [.evpPkeyFree h]
     | .cert h => [.x509Free h]
     | .crl h => [.x509CrlFree h]) ++ [.infoStruct]

/-- `OSSL_STORE_INFO_new_NAME`: wrap a name string; on allocation failure
return NULL, releasing nothing. -/
def OSSL_STORE_INFO_new_NAME (allocOk : Bool) (nm : String) :
    Option StoreInfo × List Release :=
  (store_info_new allocOk (.name nm none), [])

/-- `OSSL_STORE_INFO_new_PARAMS`: wrap a key-parameters handle. -/
def OSSL_STORE_INFO_new_PARAMS (allocOk : Bool) (h : Nat) :
    Option StoreInfo × List Release :=
  (store_info_new allocOk (.params h), [])

/-- `OSSL_STORE_INFO_new_PKEY`: wrap a key handle. -/
def OSSL_STORE_INFO_new_PKEY (allocOk : Bool) (h : Nat) :
    Option StoreInfo × List Release :=
  (store_info_new allocOk (.pkey h), [])

/-- `OSSL_STORE_INFO_new_CERT`: wrap a certificate handle. -/
def OSSL_STORE_INFO_new_CERT (allocOk : Bool) (h : Nat) :
    Option StoreInfo × List Release :=
  (store_info_new allocOk (.cert h), [])

/-- `OSSL_STORE_INFO_new_CRL`: wrap a CRL handle. -/
def OSSL_STORE_INFO_new_CRL (allocOk : Bool) (h : Nat) :
    Option StoreInfo × List Release :=
  (store_info_new allocOk (.crl h), [])

/-- `ossl_store_info_new_EMBEDDED`: wrap an already-open byte buffer plus an
optional PEM name.  `zallocOk` governs `store_info_new`'s allocation,
`strdupOk` the `OPENSSL_strdup` of the PEM name.  When the strdup fails the
code calls `OSSL_STORE_INFO_free(info)`, whose release trace is returned. -/
def ossl_store_info_new_EMBEDDED (zallocOk strdupOk : Bool)
    (new_pem_name : Option String) (embedded : Nat) :
    Option StoreInfo × List Release :=
  match store_info_new zallocOk (.embedded embedded none) with
  | none => (none, [])
  | some _ =>
    let pem : Option String :=
      match new_pem_name with
      | none => none
      | some s => if strdupOk then some s else none
    let info : StoreInfo := .embedded embedded pem
    if new_pem_name.isSome ∧ pem.isNone then
      (none, OSSL_STORE_INFO_free (some info))
    else
      (some info, [])

/-- `OSSL_STORE_INFO_set0_NAME_description`: on a `NAME`-tagged object,
install the description and return 1; otherwise raise
`ERR_R_PASSED_INVALID_ARGUMENT`, return 0 and leave the object unchanged. -/
def OSSL_STORE_INFO_set0_NAME_description (info : StoreInfo)
    (desc : Option String) : Nat × StoreInfo × List StoreErr :=
  match info with
  | .name nm _ => (1, .name nm desc, [])
  | i => (0, i, [.invalidArgument])

/-- Reference-count increment shared by `EVP_PKEY_up_ref`, `X509_up_ref` and
`X509_CRL_up_ref`: bump the count of handle `h` in the global state. -/
def up_ref (h : Nat) (st : Nat → Nat) : Nat → Nat :=
  fun k => if k = h then st k + 1 else st k

/-- `EVP_PKEY_up_ref`. -/
def EVP_PKEY_up_ref : Nat → (Nat → Nat) → Nat → Nat := up_ref

/-- `X509_up_ref`. -/
def X509_up_ref : Nat → (Nat → Nat) → Nat → Nat := up_ref

/-- `X509_CRL_up_ref`. -/
def X509_CRL_up_ref : Nat → (Nat → Nat) → Nat → Nat := up_ref

/-- `OSSL_STORE_INFO_get0_NAME`: borrow the name string on a tag match,
NULL otherwise; never raises. -/
def OSSL_STORE_INFO_get0_NAME : StoreInfo → Option String × List StoreErr
  | .name nm _ => (some nm, [])
  | _ => (none, [])

/-- `OSSL_STORE_INFO_get1_NAME`: `OPENSSL_strdup` the name string on a tag
match (failure governed by `strdupOk`); on mismatch raise `NOT_A_NAME`. -/
def OSSL_STORE_INFO_get1_NAME (strdupOk : Bool) :
    StoreInfo → Option String × List StoreErr
  | .name nm _ => if strdupOk then (some nm, []) else (none, [.malloc])
  | _ => (none, [.notAName])

/-- `OSSL_STORE_INFO_get0_NAME_description`: borrow the description (possibly
NULL) on a tag match; never raises. -/
def OSSL_STORE_INFO_get0_NAME_description :
    StoreInfo → Option String × List StoreErr
  | .name _ d => (d, [])
  | _ => (none, [])

/-- `OSSL_STORE_INFO_get1_NAME_description`: duplicate the description,
substituting `""` when it is NULL; on mismatch raise `NOT_A_NAME`. -/
def OSSL_STORE_INFO_get1_NAME_description (strdupOk : Bool) :
    StoreInfo → Option String × List StoreErr
  | .name _ d => if strdupOk then (some (d.getD ""), []) else (none, [.malloc])
  | _ => (none, [.notAName])

/-- `OSSL_STORE_INFO_get0_PARAMS`: borrow, no refcount change, no error. -/
def OSSL_STORE_INFO_get0_PARAMS : StoreInfo → Option Nat × List StoreErr
  | .params h => (some h, [])
  | _ => (none, [])

/-- `OSSL_STORE_INFO_get1_PARAMS`: on a tag match `EVP_PKEY_up_ref` then
return the handle; on mismatch raise `NOT_PARAMETERS`. -/
def OSSL_STORE_INFO_get1_PARAMS (st : Nat → Nat) :
    StoreInfo → Option Nat × (Nat → Nat) × List StoreErr
  | .params h => (some h, EVP_PKEY_up_ref h st, [])
  | _ => (none, st, [.notParameters])

/-- `OSSL_STORE_INFO_get0_PKEY`: borrow, no refcount change, no error. -/
def OSSL_STORE_INFO_get0_PKEY : StoreInfo → Option Nat × List StoreErr
  | .pkey h => (some h, [])
  | _ => (none, [])

/-- `OSSL_STORE_INFO_get1_PKEY`: on a tag match `EVP_PKEY_up_ref` then
return the handle; on mismatch raise `NOT_A_KEY`. -/
def OSSL_STORE_INFO_get1_PKEY (st : Nat → Nat) :
    StoreInfo → Option Nat × (Nat → Nat) × List StoreErr
  | .pkey h => (some h, EVP_PKEY_up_ref h st, [])
  | _ => (none, st, [.notAKey])

/-- `OSSL_STORE_INFO_get0_CERT`: borrow, no refcount change, no error. -/
def OSSL_STORE_INFO_get0_CERT : StoreInfo → Option Nat × List StoreErr
  | .cert h => (some h, [])
  | _ => (none, [])

/-- `OSSL_STORE_INFO_get1_CERT`: on a tag match `X509_up_ref` then return
the handle; on mismatch raise `NOT_A_CERTIFICATE`. -/
def OSSL_STORE_INFO_get1_CERT (st : Nat → Nat) :
    StoreInfo → Option Nat × (Nat → Nat) × List StoreErr
  | .cert h => (some h, X509_up_ref h st, [])
  | _ => (none, st, [.notACertificate])

/-- `OSSL_STORE_INFO_get0_CRL`: borrow, no refcount change, no error. -/
def OSSL_STORE_INFO_get0_CRL : StoreInfo → Option Nat × List StoreErr
  | .crl h => (some h, [])
  | _ => (none, [])

/-- `OSSL_STORE_INFO_get1_CRL`: on a tag match `X509_CRL_up_ref` then return
the handle; on mismatch raise `NOT_A_CRL`. -/
def OSSL_STORE_INFO_get1_CRL (st : Nat → Nat) :
    StoreInfo → Option Nat × (Nat → Nat) × List StoreErr
  | .crl h => (some h, X509_CRL_up_ref h st, [])
  | _ => (none, st, [.notACRL])

/-- Result of one `OSSL_STORE_load` call against the list-backed stub loader,
instrumented with the number of `loader->load` invocations and the exact
objects passed to the post-process filter. -/
structure LoadResult where
  returned : Option StoreInfo
  remaining : List StoreInfo
  loaderCalls : Nat
  filterCalls : List StoreInfo
deriving DecidableEq, Repr

/-- `OSSL_STORE_load`, specialized to a loader whose `load` pops the head of
a list (the stub loader of the spec: the underlying sequence is the list,
the sentinel is returned when it is exhausted).  Faithful to the C loop:
`again:` call `loader->load`; if a filter is installed and the result is
non-NULL, apply the filter with its opaque data; a NULL filter result means
discard, `goto again`. -/
def OSSL_STORE_load (pp : Option (StoreInfo → Nat → Option StoreInfo))
    (ppd : Nat) : List StoreInfo → LoadResult
  | [] => ⟨none, [], 1, []⟩
  | x :: xs =>
    match pp with
    | none => ⟨some x, xs, 1, []⟩
    | some f =>
      match f x ppd with
      | some y => ⟨some y, xs, 1, [x]⟩
      | none =>
        let r := OSSL_STORE_load pp ppd xs
        ⟨r.returned, r.remaining, r.loaderCalls + 1, x :: r.filterCalls⟩

/-- `OSSL_STORE_eof` for the list-backed stub loader: delegates to the
loader's eof query, which for the stub is exhaustion of the sequence. -/
def OSSL_STORE_eof (l : List StoreInfo) : Bool :=
  l.isEmpty

/-- The spec's example filter: reject every `NAME`-tagged object, keep
everything else unchanged. -/
def rejectNames : StoreInfo → Nat → Option StoreInfo :=
  fun v _ =>
    match v with
    | .name _ _ => none
    | x => some x

/-- The spec's stub sequence `[Name, Certificate, Name, Certificate]`. -/
def stubSeq : List StoreInfo :=
  [.name "n1" none, .cert 10, .name "n2" none, .cert 11]

/-- The session state `struct ossl_store_ctx_st`, with the loader and its
per-session state as opaque identifiers. -/
structure StoreCtx where
  loader : Nat
  loader_ctx : Nat
  ui_method : Nat
  ui_data : Nat
  post_process : Option (StoreInfo → Nat → Option StoreInfo)
  post_process_data : Nat

/-- The environment `OSSL_STORE_open` runs in: the scheme registry
(`ossl_store_get0_loader_int`), each loader's `open` entry point, each
loader's `close` entry point (status it would report), and whether the
`OPENSSL_zalloc` of the context succeeds. -/
structure OpenWorld where
  registry : List Char → Option Nat
  loaderOpen : Nat → List Char → Option Nat
  loaderClose : Nat → Int
  ctxAllocOk : Bool

/-- The `scheme_copy[256]` buffer after `OPENSSL_strlcpy`: at most 255
characters of the URI are retained. -/
def scheme_copy (uri : List Char) : List Char :=
  uri.take 255

/-- The scheme string `OSSL_STORE_open` hands to the registry: `strchr` the
copied buffer for the first `:` and cut there; if there is none, use the
default scheme `file`. -/
def schemeKey (uri : List Char) : List Char :=
  let sc := scheme_copy uri
  if ':' ∈ sc then sc.takeWhile (fun c => c != ':') else "file".toList

/-- `OSSL_STORE_open`: look up the scheme, call the loader's open, allocate
and populate the context.  The second component is the list of loader
sessions closed on the cleanup path (`done:`); the status returned by that
close is discarded by the code, so it does not appear in the result. -/
def OSSL_STORE_open (w : OpenWorld) (uri : List Char) (um ud : Nat)
    (pp : Option (StoreInfo → Nat → Option StoreInfo)) (ppd : Nat) :
    Option StoreCtx × List Nat :=
  match w.registry (schemeKey uri) with
  | none => (none, [])
  | some loader =>
    match w.loaderOpen loader uri with
    | none => (none, [])
    | some session =>
      if w.ctxAllocOk then
        (some ⟨loader, session, um, ud, pp, ppd⟩, [])
      else
        (none, [session])

/-- Events emitted by `OSSL_STORE_close`, in order. -/
inductive CloseEvent where
  | loaderClose (session : Nat) (status : Int)
  | freeCtx
deriving DecidableEq, Repr

/-- `OSSL_STORE_close`: call the loader's close on the session, then
`OPENSSL_free` the context unconditionally, and return the loader's close
status. -/
def OSSL_STORE_close (closeFn : Nat → Int) (ctx : StoreCtx) :
    Int × List CloseEvent :=
  (closeFn ctx.loader_ctx,
   [.loaderClose ctx.loader_ctx (closeFn ctx.loader_ctx), .freeCtx])

/-! ## Helper lemmas -/

lemma load_returned_eq_findSome (f : StoreInfo → Nat → Option StoreInfo)
    (ppd : Nat) :
    ∀ l : List StoreInfo,
      (OSSL_STORE_load (some f) ppd l).returned = l.findSome? fun x => f x ppd := by
  intro l
  induction l with
  | nil => rfl
  | cons x xs ih =>
    rw [List.findSome?_cons]
    cases hfx : f x ppd with
    | some y => simp [OSSL_STORE_load, hfx]
    | none => simp [OSSL_STORE_load, hfx, ih]

lemma load_loaderCalls_pos (pp : Option (StoreInfo → Nat → Option StoreInfo))
    (ppd : Nat) :
    ∀ l : List StoreInfo, 1 ≤ (OSSL_STORE_load pp ppd l).loaderCalls := by
  intro l
  induction l with
  | nil => cases pp <;> simp [OSSL_STORE_load]
  | cons x xs ih =>
    cases pp with
    | none => simp [OSSL_STORE_load]
    | some f =>
      cases hfx : f x ppd with
      | some y => simp [OSSL_STORE_load, hfx]
      | none => simp [OSSL_STORE_load, hfx]

/-! ## Claim theorems -/

/-- C1: with a post-process filter installed, every `OSSL_STORE_load` call
invokes the loader's load at least once; when the loader returns the NULL
sentinel the call returns it at once without touching the filter; when the
filter discards (returns NULL) the load-and-filter step is retried, so the
call returns exactly the first non-discarded (possibly transformed) object,
or the sentinel when the sequence ends.  On the spec's stub sequence
`[Name, Certificate, Name, Certificate]` with a filter rejecting names,
successive calls yield the two certificates then the sentinel, with eof true
afterwards. -/
theorem spec_C1_load_filter_pipeline :
    (∀ (f : StoreInfo → Nat → Option StoreInfo) (ppd : Nat) (l : List StoreInfo),
        (OSSL_STORE_load (some f) ppd l).returned = l.findSome? fun x => f x ppd)
    ∧ (∀ (f : StoreInfo → Nat → Option StoreInfo) (ppd : Nat),
        OSSL_STORE_load (some f) ppd [] = ⟨none, [], 1, []⟩)
    ∧ (∀ (pp : Option (StoreInfo → Nat → Option StoreInfo)) (ppd : Nat)
         (l : List StoreInfo), 1 ≤ (OSSL_STORE_load pp ppd l).loaderCalls)
    ∧ OSSL_STORE_load (some rejectNames) 0 stubSeq =
        ⟨some (.cert 10), [.name "n2" none, .cert 11], 2, [.name "n1" none, .cert 10]⟩
    ∧ OSSL_STORE_load (some rejectNames) 0 [.name "n2" none, .cert 11] =
        ⟨some (.cert 11), [], 2, [.name "n2" none, .cert 11]⟩
    ∧ OSSL_STORE_load (some rejectNames) 0 [] = ⟨none, [], 1, []⟩
    ∧ OSSL_STORE_eof [] = true := by
  refine ⟨load_returned_eq_findSome, fun f ppd => rfl,
          load_loaderCalls_pos, ?_, ?_, rfl, rfl⟩
  · decide
  · decide

/-- C2 counterexample: the EmbeddedStream constructor, failing on the
allocation (`OPENSSL_strdup`) of the PEM name, returns NULL *and* has
released the caller-supplied buffer — refuting the claim that every
constructor leaves the payload with the caller on allocation failure. -/
theorem spec_C2_counterexample :
    (ossl_store_info_new_EMBEDDED true false (some "CERTIFICATE") 7).1 = none
    ∧ Release.bufMemFree 7 ∈
        (ossl_store_info_new_EMBEDDED true false (some "CERTIFICATE") 7).2 := by
  decide

/-- C2 (amended): the Name, Parameters, Key, Certificate and RevocationList
constructors release nothing when their allocation fails, and so does the
EmbeddedStream constructor when its own struct allocation fails; but when
duplication of a supplied PEM name fails, the EmbeddedStream constructor
releases the embedded buffer (already under the object's ownership) before
returning NULL. -/
theorem spec_C2_constructor_failure_ownership :
    (∀ nm, OSSL_STORE_INFO_new_NAME false nm = (none, []))
    ∧ (∀ h, OSSL_STORE_INFO_new_PARAMS false h = (none, []))
    ∧ (∀ h, OSSL_STORE_INFO_new_PKEY false h = (none, []))
    ∧ (∀ h, OSSL_STORE_INFO_new_CERT false h = (none, []))
    ∧ (∀ h, OSSL_STORE_INFO_new_CRL false h = (none, []))
    ∧ (∀ b pem e, ossl_store_info_new_EMBEDDED false b pem e = (none, []))
    ∧ (∀ s e, ossl_store_info_new_EMBEDDED true false (some s) e =
        (none, [.bufMemFree e, .infoStruct])) := by
  refine ⟨fun nm => rfl, fun h => rfl, fun h => rfl, fun h => rfl, fun h => rfl,
          fun b pem e => rfl, fun s e => ?_⟩
  simp [ossl_store_info_new_EMBEDDED, store_info_new, OSSL_STORE_INFO_free]

/-- C8: `OSSL_STORE_close` invokes the loader's close on the session, then
frees the context unconditionally — the trace always ends with the context
deallocation, whatever close status the loader reports — and returns the
loader's close status to the caller. -/
theorem spec_C8_close_always_frees :
    ∀ (closeFn : Nat → Int) (ctx : StoreCtx),
      (OSSL_STORE_close closeFn ctx).1 = closeFn ctx.loader_ctx
      ∧ (OSSL_STORE_close closeFn ctx).2 =
          [.loaderClose ctx.loader_ctx (closeFn ctx.loader_ctx), .freeCtx]
      ∧ CloseEvent.freeCtx ∈ (OSSL_STORE_close closeFn ctx).2 := by
  intro closeFn ctx
  refine ⟨rfl, rfl, ?_⟩
  simp [OSSL_STORE_close]

/-- C10: freeing a NULL credential-object pointer is a no-op — no payload
release and no struct deallocation happens. -/
theorem spec_C10_free_null_noop : OSSL_STORE_INFO_free none = [] := rfl

/-- Concrete registry for witnesses: only the scheme `file` is registered,
as loader 1. -/
def regW : List Char → Option Nat :=
  fun s => if s = "file".toList then some 1 else none

/-- Concrete world whose context allocation fails (loader open succeeds with
session 7). -/
def worldAllocFail : OpenWorld :=
  ⟨regW, fun _ _ => some 7, fun _ => 0, false⟩

/-- Concrete world whose loader open yields no session. -/
def worldOpenFail : OpenWorld :=
  ⟨regW, fun _ _ => none, fun _ => 0, true⟩

/-- C3: `OSSL_STORE_open` yields no context when the scheme has no
registered loader, when the loader's open yields no session, or when the
context allocation fails; in the last case the already-obtained session is
closed before returning, and the status the loader's close would report
never influences the result. -/
theorem spec_C3_open_failure_paths :
    ∀ (w : OpenWorld) (uri : List Char) (um ud : Nat)
      (pp : Option (StoreInfo → Nat → Option StoreInfo)) (ppd : Nat),
      (w.registry (schemeKey uri) = none →
        OSSL_STORE_open w uri um ud pp ppd = (none, []))
      ∧ (∀ L, w.registry (schemeKey uri) = some L → w.loaderOpen L uri = none →
          OSSL_STORE_open w uri um ud pp ppd = (none, []))
      ∧ (∀ L s, w.registry (schemeKey uri) = some L →
          w.loaderOpen L uri = some s → w.ctxAllocOk = false →
          OSSL_STORE_open w uri um ud pp ppd = (none, [s]))
      ∧ (∀ g, OSSL_STORE_open { w with loaderClose := g } uri um ud pp ppd =
          OSSL_STORE_open w uri um ud pp ppd) := by
  intro w uri um ud pp ppd
  refine ⟨fun hr => ?_, fun L hr ho => ?_, fun L s hr ho ha => ?_, fun g => rfl⟩
  · simp [OSSL_STORE_open, hr]
  · simp [OSSL_STORE_open, hr, ho]
  · simp [OSSL_STORE_open, hr, ho, ha]

theorem spec_C3_witness :
    OSSL_STORE_open worldAllocFail "nosuch:foo".toList 0 0 none 0 = (none, [])
    ∧ OSSL_STORE_open worldOpenFail "file:x".toList 0 0 none 0 = (none, [])
    ∧ OSSL_STORE_open worldAllocFail "file:x".toList 0 0 none 0 = (none, [7]) :=
  ⟨(spec_C3_open_failure_paths worldAllocFail "nosuch:foo".toList 0 0 none 0).1
     (by decide),
   (spec_C3_open_failure_paths worldOpenFail "file:x".toList 0 0 none 0).2.1 1
     (by decide) rfl,
   (spec_C3_open_failure_paths worldAllocFail "file:x".toList 0 0 none 0).2.2.1 1 7
     (by decide) rfl rfl⟩

/-- C4: a URI with no `:` is looked up under the default scheme `file`, so
`file:/tmp/x` and `/tmp/x` hit the same registry entry, hence the identical
loader instance. -/
theorem spec_C4_default_scheme_file :
    (∀ uri : List Char, ':' ∉ uri → schemeKey uri = "file".toList)
    ∧ ∀ w : OpenWorld,
        w.registry (schemeKey "file:/tmp/x".toList) =
          w.registry (schemeKey "/tmp/x".toList) := by
  constructor
  · intro uri hni
    have h2 : ':' ∉ uri.take 255 := fun hm => hni (List.take_subset 255 uri hm)
    simp [schemeKey, scheme_copy, h2]
  · intro w
    have h : schemeKey "file:/tmp/x".toList = schemeKey "/tmp/x".toList := by
      decide
    rw [h]

theorem spec_C4_witness :
    schemeKey "/tmp/x".toList = "file".toList
    ∧ regW (schemeKey "file:/tmp/x".toList) = regW (schemeKey "/tmp/x".toList) :=
  ⟨spec_C4_default_scheme_file.1 "/tmp/x".toList (by decide),
   spec_C4_default_scheme_file.2 ⟨regW, fun _ _ => none, fun _ => 0, true⟩⟩

lemma takeWhile_len_ge :
    ∀ (l : List Char) (n : Nat), (∀ c ∈ l.take n, c ≠ ':') →
      min n l.length ≤ (l.takeWhile (fun c => c != ':')).length := by
  intro l
  induction l with
  | nil => intro n h; simp
  | cons a t ih =>
    intro n h
    cases n with
    | zero => simp
    | succ m =>
      have ha : (a != ':') = true := by
        have hne : a ≠ ':' := h a (by simp)
        simp [hne]
      have ht := ih m (fun c hc => h c (by simp [hc]))
      rw [List.takeWhile_cons, ha]
      simp only [if_true, List.length_cons, Nat.succ_min_succ]
      exact Nat.succ_le_succ ht

/-- C5: when the scheme (the part before the first `:`) is 255 characters or
longer, the 256-byte `scheme_copy` buffer truncates the colon away, so the
registry is consulted with the default key `file` — never with the overlong
scheme itself (nor any prefix of it obtained by the copy). -/
theorem spec_C5_overlong_scheme :
    ∀ uri : List Char, ':' ∈ uri → ':' ∉ uri.take 255 →
      schemeKey uri = "file".toList
      ∧ schemeKey uri ≠ uri.takeWhile (fun c => c != ':') := by
  intro uri hin hout
  have hkey : schemeKey uri = "file".toList := by
    simp [schemeKey, scheme_copy, hout]
  refine ⟨hkey, ?_⟩
  intro hcontra
  have hlen : 255 < uri.length := by
    by_contra hle
    push_neg at hle
    rw [List.take_of_length_le hle] at hout
    exact hout hin
  have hmem : ∀ c ∈ uri.take 255, c ≠ ':' :=
    fun c hc hc2 => hout (hc2 ▸ hc)
  have h255 := takeWhile_len_ge uri 255 hmem
  rw [min_eq_left (le_of_lt hlen)] at h255
  rw [hkey] at hcontra
  have h4 : ("file".toList).length =
      (uri.takeWhile (fun c => c != ':')).length := by rw [hcontra]
  have h4' : ("file".toList).length = 4 := rfl
  rw [h4'] at h4
  omega

theorem spec_C5_witness :
    schemeKey (List.replicate 255 'a' ++ [':', 'x']) = "file".toList
    ∧ schemeKey (List.replicate 255 'a' ++ [':', 'x']) ≠
        (List.replicate 255 'a' ++ [':', 'x']).takeWhile (fun c => c != ':') :=
  spec_C5_overlong_scheme (List.replicate 255 'a' ++ [':', 'x'])
    (by decide) (by decide)

/-- C6: for every accessor pair, the borrowing `get0` accessor on a
mismatched tag returns no value and raises nothing, while the duplicating
`get1` accessor on the same mismatched object raises the variant's
type-mismatch reason code and returns no value (the refcount state left
untouched). -/
theorem spec_C6_mismatch_accessors :
    ∀ (info : StoreInfo) (b : Bool) (st : Nat → Nat),
      (OSSL_STORE_INFO_get_type info ≠ OSSL_STORE_INFO_NAME →
        OSSL_STORE_INFO_get0_NAME info = (none, [])
        ∧ OSSL_STORE_INFO_get0_NAME_description info = (none, [])
        ∧ OSSL_STORE_INFO_get1_NAME b info = (none, [.notAName])
        ∧ OSSL_STORE_INFO_get1_NAME_description b info = (none, [.notAName]))
      ∧ (OSSL_STORE_INFO_get_type info ≠ OSSL_STORE_INFO_PARAMS →
        OSSL_STORE_INFO_get0_PARAMS info = (none, [])
        ∧ OSSL_STORE_INFO_get1_PARAMS st info = (none, st, [.notParameters]))
      ∧ (OSSL_STORE_INFO_get_type info ≠ OSSL_STORE_INFO_PKEY →
        OSSL_STORE_INFO_get0_PKEY info = (none, [])
        ∧ OSSL_STORE_INFO_get1_PKEY st info = (none, st, [.notAKey]))
      ∧ (OSSL_STORE_INFO_get_type info ≠ OSSL_STORE_INFO_CERT →
        OSSL_STORE_INFO_get0_CERT info = (none, [])
        ∧ OSSL_STORE_INFO_get1_CERT st info = (none, st, [.notACertificate]))
      ∧ (OSSL_STORE_INFO_get_type info ≠ OSSL_STORE_INFO_CRL →
        OSSL_STORE_INFO_get0_CRL info = (none, [])
        ∧ OSSL_STORE_INFO_get1_CRL st info = (none, st, [.notACRL])) := by
  intro info b st
  cases info <;>
    refine ⟨fun hne => ?_, fun hne => ?_, fun hne => ?_, fun hne => ?_,
            fun hne => ?_⟩ <;>
    first
      | exact absurd rfl hne
      | exact ⟨rfl, rfl, rfl, rfl⟩
      | exact ⟨rfl, rfl⟩

theorem spec_C6_witness :
    (OSSL_STORE_INFO_get0_CERT (.name "n" none) = (none, [])
     ∧ OSSL_STORE_INFO_get1_CERT (fun _ => 2) (.name "n" none) =
         (none, fun _ => 2, [.notACertificate]))
    ∧ (OSSL_STORE_INFO_get0_NAME (.cert 5) = (none, [])
       ∧ OSSL_STORE_INFO_get1_NAME true (.cert 5) = (none, [.notAName])) := by
  have h1 := (spec_C6_mismatch_accessors (.name "n" none) true
    (fun _ => 2)).2.2.2.1 (by decide)
  have h2 := (spec_C6_mismatch_accessors (.cert 5) true (fun _ => 2)).1
    (by decide)
  exact ⟨⟨h1.1, h1.2⟩, ⟨h2.1, h2.2.2.1⟩⟩

lemma up_ref_eq_update (h : Nat) (st : Nat → Nat) :
    up_ref h st = Function.update st h (st h + 1) := by
  funext k
  by_cases hk : k = h <;> simp [up_ref, Function.update_apply, hk]

/-- C7: a matching duplicating accessor on a refcounted variant bumps that
handle's reference count by exactly one (all other counts unchanged, which
the pointwise `Function.update` form expresses) and returns the stored
handle; for `Name` it returns a copy of the stored string, and duplicating
an absent description yields the empty string. -/
theorem spec_C7_get1_duplication :
    ∀ (h : Nat) (st : Nat → Nat) (nm : String) (d : Option String),
      OSSL_STORE_INFO_get1_PARAMS st (.params h) =
        (some h, Function.update st h (st h + 1), [])
      ∧ OSSL_STORE_INFO_get1_PKEY st (.pkey h) =
          (some h, Function.update st h (st h + 1), [])
      ∧ OSSL_STORE_INFO_get1_CERT st (.cert h) =
          (some h, Function.update st h (st h + 1), [])
      ∧ OSSL_STORE_INFO_get1_CRL st (.crl h) =
          (some h, Function.update st h (st h + 1), [])
      ∧ OSSL_STORE_INFO_get1_NAME true (.name nm d) = (some nm, [])
      ∧ OSSL_STORE_INFO_get1_NAME_description true (.name nm d) =
          (some (d.getD ""), [])
      ∧ OSSL_STORE_INFO_get1_NAME_description true (.name nm none) =
          (some "", []) := by
  intro h st nm d
  refine ⟨?_, ?_, ?_, ?_, rfl, rfl, rfl⟩ <;>
    simp [OSSL_STORE_INFO_get1_PARAMS, OSSL_STORE_INFO_get1_PKEY,
      OSSL_STORE_INFO_get1_CERT, OSSL_STORE_INFO_get1_CRL,
      EVP_PKEY_up_ref, X509_up_ref, X509_CRL_up_ref, up_ref_eq_update]

/-- C9: the tag stamped at construction never changes: every constructor
stamps its own tag, the only mutating operation (installing a `Name`
description) preserves the tag, succeeds exactly on `Name`-tagged objects,
and on any other tag returns 0, raises the invalid-argument reason and
leaves the object unchanged. -/
theorem spec_C9_tag_immutable :
    ∀ (info : StoreInfo) (desc : Option String),
      OSSL_STORE_INFO_get_type
          (OSSL_STORE_INFO_set0_NAME_description info desc).2.1
        = OSSL_STORE_INFO_get_type info
      ∧ (OSSL_STORE_INFO_get_type info ≠ OSSL_STORE_INFO_NAME →
          OSSL_STORE_INFO_set0_NAME_description info desc =
            (0, info, [.invalidArgument]))
      ∧ (∀ nm d, OSSL_STORE_INFO_set0_NAME_description (.name nm d) desc =
          (1, .name nm desc, []))
      ∧ (∀ nm, (OSSL_STORE_INFO_new_NAME true nm).1.map OSSL_STORE_INFO_get_type
          = some OSSL_STORE_INFO_NAME)
      ∧ (∀ h, (OSSL_STORE_INFO_new_PARAMS true h).1.map OSSL_STORE_INFO_get_type
          = some OSSL_STORE_INFO_PARAMS)
      ∧ (∀ h, (OSSL_STORE_INFO_new_PKEY true h).1.map OSSL_STORE_INFO_get_type
          = some OSSL_STORE_INFO_PKEY)
      ∧ (∀ h, (OSSL_STORE_INFO_new_CERT true h).1.map OSSL_STORE_INFO_get_type
          = some OSSL_STORE_INFO_CERT)
      ∧ (∀ h, (OSSL_STORE_INFO_new_CRL true h).1.map OSSL_STORE_INFO_get_type
          = some OSSL_STORE_INFO_CRL) := by
  intro info desc
  refine ⟨?_, ?_, fun nm d => rfl, fun nm => rfl, fun h => rfl, fun h => rfl,
          fun h => rfl, fun h => rfl⟩
  · cases info <;> rfl
  · cases info <;> intro hne <;>
      first
        | exact absurd rfl hne
        | rfl

theorem spec_C9_witness :
    OSSL_STORE_INFO_get_type
        (OSSL_STORE_INFO_set0_NAME_description (.cert 3) (some "d")).2.1
      = OSSL_STORE_INFO_get_type (.cert 3)
    ∧ OSSL_STORE_INFO_set0_NAME_description (.cert 3) (some "d") =
        (0, .cert 3, [.invalidArgument]) :=
  ⟨(spec_C9_tag_immutable (.cert 3) (some "d")).1,
   (spec_C9_tag_immutable (.cert 3) (some "d")).2.1 (by decide)⟩
